import Mathlib

/-!
A verification development for the TkinDocs compiler core: the tag tokenizer
(src/parsers.py), the literal evaluator and tag orchestrator
(src/factories.py), the stack-based widget tree builder (src/builders.py),
the named container (src/gui.py) and the shared helpers (utils/misc.py).

Strings are embedded as lists of characters.  The host GUI toolkit (tkinter)
is the external collaborator: constructor calls, attachment methods and
configuration calls on live widgets are recorded as events and allocations of
toolkit objects are modelled by a fresh-identifier counter, which stands for
Python object identity.  Python exceptions are modelled by an error type via
Except.  The model is restricted to ASCII text: Python str.isnumeric on
general Unicode classifies some further characters as numeric, but no claim
involves them.
-/

namespace TkinDocs

/-- Python string content, embedded as a list of characters. -/
abbrev Name := List Char

/-- The characters removed by Python str.strip with no arguments. -/
def isPySpace (c : Char) : Bool :=
  c == ' ' || c == '\t' || c == '\n' || c == '\r' || c == '\x0b' || c == '\x0c'

/-- Python str.strip with a character predicate: drop matching characters
from both ends. -/
def stripEnds (p : Char → Bool) (s : Name) : Name :=
  ((s.dropWhile p).reverse.dropWhile p).reverse

/-- Python str.strip with no arguments. -/
def stripWs (s : Name) : Name := stripEnds isPySpace s

/-- Python str.strip with the double-quote character, as used by the literal
evaluator's fallthrough branch. -/
def stripQuotes (s : Name) : Name := stripEnds (fun c => c == '"') s

/-- Python str.split with a single separator character and no maxsplit:
always returns at least one (possibly empty) piece. -/
def splitOnChar (c : Char) : Name → List Name
  | [] => [[]]
  | x :: xs =>
    match splitOnChar c xs with
    | [] => [[]]
    | t :: ts => if x = c then [] :: t :: ts else (x :: t) :: ts

/-- Helper for whitespace splitting: accumulates the current word reversed. -/
def wordsAux : Name → Name → List Name
  | [], acc => if acc = [] then [] else [acc.reverse]
  | c :: cs, acc =>
    if isPySpace c then
      if acc = [] then wordsAux cs [] else acc.reverse :: wordsAux cs []
    else wordsAux cs (c :: acc)

/-- Python str.split with no arguments: split on runs of whitespace,
dropping empty pieces. -/
def pySplitWs (s : Name) : List Name := wordsAux s []

/-- Python str.lower, restricted to ASCII. -/
def pyLower (s : Name) : Name := s.map Char.toLower

/-- Python str.isnumeric, restricted to ASCII where it accepts exactly the
nonempty strings of decimal digits.  In particular a decimal point is never
a numeric character. -/
def pyIsNumeric (s : Name) : Bool := !s.isEmpty && s.all (fun c => c.isDigit)

/-- Python int() on a string of decimal digits. -/
def digitsToInt (s : Name) : Int :=
  Int.ofNat (s.foldl (fun acc c => 10 * acc + (c.toNat - 48)) 0)

/-- Generic association-list lookup with string keys, modelling Python dict
indexing for dictionaries whose keys are strings. -/
def lookupN {α : Type} : List (Name × α) → Name → Option α
  | [], _ => none
  | (k, v) :: rest, key => if k = key then some v else lookupN rest key

/-- Python dict assignment d[key] = v for string-keyed dictionaries: an
existing key keeps its position and is given the new value, a new key is
appended in insertion order. -/
def dictSetN {α : Type} : List (Name × α) → Name → α → List (Name × α)
  | [], key, v => [(key, v)]
  | (k, w) :: rest, key, v =>
    if k = key then (k, v) :: rest else (k, w) :: dictSetN rest key v

/-- Python del d[key] for string-keyed dictionaries (keys are unique). -/
def eraseN {α : Type} : List (Name × α) → Name → List (Name × α)
  | [], _ => []
  | (k, v) :: rest, key => if k = key then rest else (k, v) :: eraseN rest key

/-- The Python exceptions the compiler core can raise, from src/errors.py
plus the built-in exceptions its code paths can produce.  moduleNotFound is
the ModuleNotFoundError raised for a relative import; recursionError is the
interpreter recursion limit, used as the fuel-exhaustion outcome of the
fueled evaluator and unreachable from its entry point. -/
inductive Err where
  | invalidWidget
  | invalidParent
  | absentRoot
  | duplicateRoot
  | incoherentArgument
  | keyError
  | valueError
  | typeError
  | attributeError
  | indexError
  | moduleNotFound
  | recursionError
deriving DecidableEq

/-- The values the literal evaluator TkGUIFactory._evaluate can produce.
vFloat keeps the raw text because the float branch is unreachable (a string
containing a decimal point is never isnumeric); vFunc is a dereferenced
function handle (resolved module name, attribute name); vBound is such a
handle partially applied to the GUI under construction. -/
inductive Value where
  | vInt (n : Int)
  | vFloat (raw : Name)
  | vBool (b : Bool)
  | vStr (s : Name)
  | vList (elems : List Value)
  | vFunc (modName funcName : Name)
  | vBound (modName funcName : Name)

mutual

/-- Python structural equality on evaluator values, used for dictionary key
comparison (registry keys are in practice strings). -/
def Value.beq : Value → Value → Bool
  | .vInt a, .vInt b => a == b
  | .vFloat a, .vFloat b => a == b
  | .vBool a, .vBool b => a == b
  | .vStr a, .vStr b => a == b
  | .vList a, .vList b => Value.beqs a b
  | .vFunc m f, .vFunc m' f' => m == m' && f == f'
  | .vBound m f, .vBound m' f' => m == m' && f == f'
  | _, _ => false

/-- Elementwise equality of value lists. -/
def Value.beqs : List Value → List Value → Bool
  | [], [] => true
  | x :: xs, y :: ys => Value.beq x y && Value.beqs xs ys
  | _, _ => false

end

/-- Keyword-argument dictionaries: string keys, evaluated values. -/
abbrev KW := List (Name × Value)

/-- TkGUIFactory._deference_function: split a dotted name into exactly a
module alias and an attribute name (any other shape fails the tuple
unpacking with ValueError), look the alias up in the import table (KeyError
when absent) and return the handle.  getattr on the live module is external
and modelled as producing the handle. -/
def deference (imported : List (Name × Name)) (nm : Name) : Except Err (Name × Name) :=
  match splitOnChar '.' nm with
  | [m, f] =>
    match lookupN imported m with
    | some full => .ok (full, f)
    | none => .error .keyError
  | _ => .error .valueError

/-- The boolean literal set TkGUIFactory._BOOLEANS. -/
def BOOLEANS : List Name := ["True".data, "False".data]

/-- TkGUIFactory._OPEN_LIST_TOKEN. -/
def OPEN_LIST_TOKEN : Name := ['{']

/-- TkGUIFactory._CLOSE_LIST_TOKEN. -/
def CLOSE_LIST_TOKEN : Name := ['}']

/-- TkGUIFactory._SELF_REFERENCE_TOKEN. -/
def SELF_REFERENCE_TOKEN : Name := ['?', '?']

/-- TkGUIFactory._REFERENCE_TOKEN. -/
def REFERENCE_TOKEN : Name := ['?']

/-- Sequence a list of evaluation results left to right, stopping at the
first error, as the tuple() of a generator over _evaluate does. -/
def collectE : List (Except Err Value) → Except Err (List Value)
  | [] => .ok []
  | .error e :: _ => .error e
  | .ok v :: rest => (collectE rest).map (fun vs => v :: vs)

/-- TkGUIFactory._evaluate together with the inlined _to_list, written with
explicit fuel so that the definition is structurally recursive and
computable; evaluate supplies fuel exceeding the recursion depth, so the
fuel-exhaustion branch is unreachable from it.  Branch order follows the
source: self-reference, reference, list literal, boolean literal set (note
the source returns bool(stripped), the truthiness of the nonempty literal),
numeric, and the quote-stripped string fallthrough.  _to_list slices off the
delimiters (value[1:-1]) and splits on the list delimiter. -/
def evaluateF (imported : List (Name × Name)) : Nat → Name → Except Err Value
  | 0, _ => .error .recursionError
  | fuel + 1, s =>
    let stripped := stripWs s
    if SELF_REFERENCE_TOKEN.isPrefixOf stripped then
      (deference imported (stripped.drop 2)).map (fun mf => .vBound mf.1 mf.2)
    else if REFERENCE_TOKEN.isPrefixOf stripped then
      (deference imported (stripped.drop 1)).map (fun mf => .vFunc mf.1 mf.2)
    else if OPEN_LIST_TOKEN.isPrefixOf stripped ∧ CLOSE_LIST_TOKEN.isSuffixOf stripped then
      (collectE ((splitOnChar ':' ((stripped.drop 1).dropLast)).map
        (fun t => evaluateF imported fuel t))).map (fun vs => .vList vs)
    else if stripped ∈ BOOLEANS then .ok (.vBool (!stripped.isEmpty))
    else if pyIsNumeric stripped then
      if '.' ∈ stripped then .ok (.vFloat stripped) else .ok (.vInt (digitsToInt stripped))
    else .ok (.vStr (stripQuotes stripped))

/-- TkGUIFactory._evaluate: each recursive step strips at least the two list
delimiters, so length-plus-one fuel always suffices. -/
def evaluate (imported : List (Name × Name)) (s : Name) : Except Err Value :=
  evaluateF imported (s.length + 1) s

/-- The tkinter objects the builder creates.  Each carries a fresh identifier
standing for Python object identity; widgets also carry the widget type tag
they were created from. -/
inductive TkObj where
  | widget (id : Nat) (ty : Name)
  | intVar (id : Nat)
  | strVar (id : Nat)
deriving DecidableEq

/-- The identity of a tkinter object. -/
def TkObj.objId : TkObj → Nat
  | .widget i _ => i
  | .intVar i => i
  | .strVar i => i

/-- Python dict lookup for the TkGUI named registry, whose keys are
arbitrary evaluator values compared by Python equality. -/
def lookupV : List (Value × TkObj) → Value → Option TkObj
  | [], _ => none
  | (k, v) :: rest, key => if Value.beq k key then some v else lookupV rest key

/-- Python dict assignment for the TkGUI named registry: an existing key
keeps its position, a new key is appended. -/
def dictSetV : List (Value × TkObj) → Value → TkObj → List (Value × TkObj)
  | [], key, v => [(key, v)]
  | (k, w) :: rest, key, v =>
    if Value.beq k key then (k, v) :: rest else (k, w) :: dictSetV rest key v

/-- TkGUI (src/gui.py): the named container.  The root element is a live
tk.Tk window; its constructor arguments and the configuration applied by
_config_root are recorded (option validation against the live toolkit is an
external effect). -/
structure GUIState where
  named : List (Value × TkObj)
  rootId : Nat
  rootArgs : List Value
  rootConfig : KW

/-- TkGUI.get_default: the value mapped to the key if present, otherwise the
fallback.  A missing key (or the key None) raises KeyError in __getitem__,
which get_default catches and converts into the fallback. -/
def TkGUI.get_default (g : GUIState) (key : Option Value) (dflt : Option TkObj) : Option TkObj :=
  match key with
  | none => dflt
  | some k =>
    match lookupV g.named k with
    | some v => some v
    | none => dflt

/-- TkGUI.set_default: return the stored value if present, otherwise store
and return the fallback; nothing is stored when the key or the value is
None.  (__setitem__ accepts every value here: all modelled objects are
tkinter objects.) -/
def TkGUI.set_default (g : GUIState) (key : Option Value) (dflt : Option TkObj) :
    Option TkObj × GUIState :=
  let value := TkGUI.get_default g key dflt
  match key, value with
  | some k, some v => (value, { g with named := dictSetV g.named k v })
  | _, _ => (value, g)

/-- The widget-name keyword TkGUIBuilder.WIDGET_NAME_KEY. -/
def WIDGET_NAME_KEY : Name := "key".data

/-- The shared-variable keyword TkGUIBuilder.VAR_NAME_KEY. -/
def VAR_NAME_KEY : Name := "var_key".data

/-- The layout keyword TkGUIBuilder.LAYOUT_KEY. -/
def LAYOUT_KEY : Name := "layout".data

/-- TkGUIBuilder._DEFAULT_LAYOUT. -/
def DEFAULT_LAYOUT : Name := "pack".data

/-- pull_from_dict (utils/misc.py): remove and return the value of the key
when present, otherwise return the default and leave the dict unchanged. -/
def pull_from_dict (d : KW) (key : Name) (dflt : Option Value) : Option Value × KW :=
  match lookupN d key with
  | some v => (some v, eraseN d key)
  | none => (dflt, d)

/-- External tkinter calls made by the builder, recorded as events: an
attachment method invoked by name on the current widget, the grid
configuration pass on the parent (whose row/columnconfigure loop consults
live toolkit state via grid_size), and forcing a combobox read-only. -/
inductive BEvent where
  | attach (widgetId : Nat) (layout : Name) (args : List Value) (kwargs : KW)
  | gridConfig (parentId : Nat) (kwargs : KW)
  | stateReadonly (widgetId : Nat)

/-- The widget type names understood by the factory, keys of
TkGUIFactory._WIDGETS.  The mapped tkinter classes are identified by these
tags; tk.Tk is the tag of the root entry. -/
inductive WidgetType where
  | tk_Tk
  | tk_Frame
  | tk_Label
  | tk_Entry
  | tk_Text
  | tk_Canvas
  | tk_Button
  | tk_Radiobutton
  | tk_Checkbutton
  | ttk_Combobox
deriving DecidableEq

/-- The tag written on a created widget, for the record only. -/
def WidgetType.tag : WidgetType → Name
  | .tk_Tk => "Tk".data
  | .tk_Frame => "Frame".data
  | .tk_Label => "Label".data
  | .tk_Entry => "Entry".data
  | .tk_Text => "Text".data
  | .tk_Canvas => "Canvas".data
  | .tk_Button => "Button".data
  | .tk_Radiobutton => "Radiobutton".data
  | .tk_Checkbutton => "Checkbutton".data
  | .ttk_Combobox => "Combobox".data

/-- TkGUIBuilder (src/builders.py): the widget stack (a deque appended and
popped on the right), the current and parent frames, the held TkGUI, the
fresh-identifier counter modelling allocation, the variable bindings passed
to radio/check/combo constructors (widget id, variable id), and the recorded
external toolkit events. -/
structure BuilderState where
  widget_stack : List TkObj
  current : Option TkObj
  parent : Option TkObj
  gui : Option GUIState
  fresh : Nat
  bindings : List (Nat × Nat)
  events : List BEvent

/-- The builder state produced by TkGUIBuilder._init_attributes at
construction time. -/
def initialBuilder : BuilderState :=
  { widget_stack := [], current := none, parent := none, gui := none,
    fresh := 0, bindings := [], events := [] }

/-- TkGUIBuilder._push_to_stack. -/
def push_stack (b : BuilderState) (w : TkObj) : BuilderState :=
  { b with
    widget_stack :=
      match b.parent with
      | some p => b.widget_stack ++ [p]
      | none => b.widget_stack,
    parent := b.current,
    current := some w }

/-- TkGUIBuilder._pull_from_stack. -/
def pull_stack (b : BuilderState) : BuilderState :=
  { b with
    current := b.parent,
    parent := b.widget_stack.getLast?,
    widget_stack := b.widget_stack.dropLast }

/-- TkGUIBuilder._init_root: creating a root inside an active root fails
with the duplicate-root condition, otherwise a fresh TkGUI is installed and
its root window returned. -/
def init_root (b : BuilderState) (args : List Value) (kwargs : KW) :
    Except Err (TkObj × BuilderState) :=
  if b.current ≠ none then .error .duplicateRoot
  else
    let rootW : TkObj := .widget b.fresh (WidgetType.tag .tk_Tk)
    let g : GUIState :=
      { named := [], rootId := b.fresh, rootArgs := args, rootConfig := kwargs }
    .ok (rootW, { b with gui := some g, fresh := b.fresh + 1 })

/-- TkGUIBuilder._get_var: pull the optional variable name from kwargs,
construct a fresh default variable, and obtain-or-create via
TkGUI.set_default on the held gui (an absent gui would be Python None and
fail the attribute access). -/
def get_var (b : BuilderState) (kwargs : KW) (mkVar : Nat → TkObj) :
    Except Err (TkObj × KW × BuilderState) :=
  match b.gui with
  | none => .error .attributeError
  | some g =>
    .ok ((TkGUI.set_default g (pull_from_dict kwargs VAR_NAME_KEY none).1
            (some (mkVar b.fresh))).1.getD (mkVar b.fresh),
         (pull_from_dict kwargs VAR_NAME_KEY none).2,
         { b with
            gui := some (TkGUI.set_default g
              (pull_from_dict kwargs VAR_NAME_KEY none).1 (some (mkVar b.fresh))).2,
            fresh := b.fresh + 1 })

/-- Shared shape of _init_radiobutton, _init_checkbutton and _init_combobox:
obtain-or-create the shared variable, then construct the widget with the
remaining arguments and the variable keyword (a variable key already present
in kwargs would collide with the explicit keyword and raise TypeError). -/
def init_with_var (b : BuilderState) (ty : WidgetType) (kwargs : KW)
    (mkVar : Nat → TkObj) (varKw : Name) : Except Err (TkObj × BuilderState) :=
  match get_var b kwargs mkVar with
  | .error e => .error e
  | .ok gv =>
    if (lookupN gv.2.1 varKw).isSome then .error .typeError
    else
      .ok (.widget gv.2.2.fresh (WidgetType.tag ty),
        { gv.2.2 with
            fresh := gv.2.2.fresh + 1,
            bindings := gv.2.2.bindings ++ [(gv.2.2.fresh, gv.1.objId)] })

/-- TkGUIBuilder._init_widget: construct an arbitrary widget with the
current frame as parent (an external constructor call). -/
def init_widget (b : BuilderState) (ty : WidgetType) : Except Err (TkObj × BuilderState) :=
  let w : TkObj := .widget b.fresh (WidgetType.tag ty)
  .ok (w, { b with fresh := b.fresh + 1 })

/-- TkGUIBuilder._create_widget_of_type: dispatch through _WIDGET_INITS,
with the combobox additionally forced read-only. -/
def create_widget_of_type (b : BuilderState) (ty : WidgetType) (args : List Value)
    (kwargs : KW) : Except Err (TkObj × BuilderState) :=
  match ty with
  | .tk_Tk => init_root b args kwargs
  | .tk_Radiobutton => init_with_var b ty kwargs TkObj.intVar ("variable".data)
  | .tk_Checkbutton => init_with_var b ty kwargs TkObj.intVar ("variable".data)
  | .ttk_Combobox =>
    match init_with_var b ty kwargs TkObj.strVar ("textvariable".data) with
    | .error e => .error e
    | .ok (w, b') =>
      .ok (w, { b' with events := b'.events ++ [.stateReadonly w.objId] })
  | _ => init_widget b ty

/-- TkGUIBuilder._name_object: register the object in the held gui under the
pulled name, when one was given (a missing gui would be Python None and fail
the subscript). -/
def name_object (b : BuilderState) (w : TkObj) (name : Option Value) :
    Except Err BuilderState :=
  match name with
  | none => .ok b
  | some n =>
    match b.gui with
    | none => .error .typeError
    | some g => .ok { b with gui := some { g with named := dictSetV g.named n w } }

/-- TkGUIBuilder.open_widget: a non-root widget needs a current frame
(invalid-parent condition), then the optional widget name is pulled,
the widget created, registered, and pushed. -/
def open_widget (b : BuilderState) (ty : WidgetType) (args : List Value) (kwargs : KW) :
    Except Err BuilderState :=
  if ty ≠ .tk_Tk ∧ b.current = none then .error .invalidParent
  else
    match create_widget_of_type b ty args
        (pull_from_dict kwargs WIDGET_NAME_KEY none).2 with
    | .error e => .error e
    | .ok wb =>
      match name_object wb.2 wb.1 (pull_from_dict kwargs WIDGET_NAME_KEY none).1 with
      | .error e => .error e
      | .ok b'' => .ok (push_stack b'' wb.1)

/-- Read an integer-valued keyword, as the grid configuration does with
kwargs indexing (KeyError when absent) and arithmetic (TypeError when the
value is not a number). -/
def getIntKW (kw : KW) (k : Name) : Except Err Int :=
  match lookupN kw k with
  | some (.vInt n) => .ok n
  | some _ => .error .typeError
  | none => .error .keyError

/-- Optional span keyword of the grid configuration, defaulting to 1. -/
def getSpanKW (kw : KW) (k : Name) : Except Err Int :=
  match lookupN kw k with
  | some (.vInt n) => .ok n
  | some _ => .error .typeError
  | none => .ok 1

/-- TkGUIBuilder._grid_config: reads the row/column arguments and the
optional spans, then weight-configures the parent's spanned rows and
columns; the grid_size query and the per-index configure calls act on the
live toolkit and are recorded as one event on the parent. -/
def grid_config (b : BuilderState) (kwargs : KW) : Except Err BuilderState :=
  match getIntKW kwargs ("row".data) with
  | .error e => .error e
  | .ok _ =>
    match getIntKW kwargs ("column".data) with
    | .error e => .error e
    | .ok _ =>
      match getSpanKW kwargs ("rowspan".data) with
      | .error e => .error e
      | .ok _ =>
        match getSpanKW kwargs ("columnspan".data) with
        | .error e => .error e
        | .ok _ =>
          match b.parent with
          | none => .error .attributeError
          | some p => .ok { b with events := b.events ++ [.gridConfig p.objId kwargs] }

/-- TkGUIBuilder._perform_layout_config: _LAYOUT_CONFIGS contains exactly
the grid entry. -/
def perform_layout_config (b : BuilderState) (layout : Name) (kwargs : KW) :
    Except Err BuilderState :=
  if layout = "grid".data then grid_config b kwargs else .ok b

/-- TkGUIBuilder.close_widget: with no parent frame this is the
finalize-style close that re-initializes every attribute but preserves the
gui; otherwise the layout keyword is pulled (defaulting to pack), the layout
configuration runs, the named attachment method is invoked on the current
widget (an absent current frame would be Python None and fail the attribute
lookup; a non-string layout would fail getattr), and the stack is pulled. -/
def close_widget (b : BuilderState) (args : List Value) (kwargs : KW) :
    Except Err BuilderState :=
  if b.parent = none then
    .ok { b with widget_stack := [], current := none, parent := none }
  else
    match (pull_from_dict kwargs LAYOUT_KEY (some (.vStr DEFAULT_LAYOUT))).1 with
    | some (.vStr layout) =>
      match perform_layout_config b layout
          (pull_from_dict kwargs LAYOUT_KEY (some (.vStr DEFAULT_LAYOUT))).2 with
      | .error e => .error e
      | .ok b' =>
        match b'.current with
        | none => .error .attributeError
        | some c =>
          .ok (pull_stack
            { b' with events := b'.events ++ [.attach c.objId layout args
                (pull_from_dict kwargs LAYOUT_KEY (some (.vStr DEFAULT_LAYOUT))).2] })
    | _ => .error .typeError

/-- Loop measure for finalize_gui's closing loop. -/
def measureB (b : BuilderState) : Nat :=
  b.widget_stack.length + (if b.parent = none then 0 else 1)

/-- The closing loop of TkGUIBuilder.finalize_gui: while a parent frame
remains, perform a default close.  Each successful default close under a
parent frame strictly shrinks the measure: the stack loses its last element
or the parent becomes none. -/
def finalize_loop (b : BuilderState) : Except Err BuilderState :=
  if h : b.parent = none then .ok b
  else
    match h2 : close_widget b [] [] with
    | .error e => .error e
    | .ok b' => finalize_loop b'
termination_by measureB b
decreasing_by
  rcases Option.ne_none_iff_exists'.mp h with ⟨p, hp⟩
  clear h
  have hplc : ∀ (bb : BuilderState) (kw : KW),
      perform_layout_config bb DEFAULT_LAYOUT kw = .ok bb := by
    intro bb kw
    unfold perform_layout_config
    rw [if_neg (by decide)]
  unfold close_widget at h2
  rw [hp] at h2
  simp only [reduceCtorEq, reduceIte] at h2
  have hpull1 : (pull_from_dict ([] : KW) LAYOUT_KEY (some (.vStr DEFAULT_LAYOUT))).1 =
      some (.vStr DEFAULT_LAYOUT) := rfl
  have hpull2 : (pull_from_dict ([] : KW) LAYOUT_KEY (some (.vStr DEFAULT_LAYOUT))).2 =
      ([] : KW) := rfl
  simp only [hpull1, hpull2, hplc] at h2
  cases hc : b.current with
  | none => rw [hc] at h2; exact absurd h2 (by simp)
  | some c =>
    rw [hc] at h2
    simp only [Except.ok.injEq] at h2
    subst h2
    unfold measureB pull_stack
    simp only
    rw [hp]
    rcases List.eq_nil_or_concat b.widget_stack with hs | ⟨l, x, hs⟩
    · simp [hs]
    · simp [hs, List.getLast?_concat]

/-- TkGUIBuilder.finalize_gui: absent-root check, the default closing loop,
then hand out the gui and reset every attribute via _init_attributes. -/
def finalize_gui (b : BuilderState) : Except Err (Option GUIState × BuilderState) :=
  match b.gui with
  | none => .error .absentRoot
  | some _ =>
    match finalize_loop b with
    | .error e => .error e
    | .ok b' =>
      .ok (b'.gui,
        { b' with widget_stack := [], current := none, parent := none, gui := none })

/-- The reserved tag-marker characters TkGUIFactory._RESERVED, the raw
string of backslash, slash, pipe, comma and dollar. -/
def RESERVED : List Char := ['\\', '/', '|', ',', '$']

/-- The structural whitespace Parser._WIPED, collapsed before parsing. -/
def WIPED : List Char := ['\n', '\t']

/-- Parser._process_text: replace every wiped character by nothing. -/
def processText (text : List Char) : List Char :=
  text.filter (fun c => !WIPED.contains c)

/-- The scanning loop of Parser._get_text_parse_generator: accumulate into a
buffer; on a reserved character with a nonempty buffer, emit the trimmed
buffer and restart the buffer with that character; at end of input emit the
final buffer as is. -/
def parseLoop (reserved : List Char) : List Char → List Char → List (List Char)
  | [], output => [output]
  | ch :: rest, output =>
    if ch ∈ reserved ∧ output ≠ [] then stripWs output :: parseLoop reserved rest [ch]
    else parseLoop reserved rest (output ++ [ch])

/-- Parser._get_text_parse_generator: strip the processed text, then scan
with an initially empty buffer. -/
def parseTags (reserved : List Char) (text : List Char) : List (List Char) :=
  parseLoop reserved (stripWs text) []

/-- The tag sequence a TKDStringParser constructed by the factory yields for
a document (Parser.__iter__ on string content; reading file content instead
is an external filesystem dispatch). -/
def tokenize (text : List Char) : List (List Char) :=
  parseTags RESERVED (processText text)

/-- The pending continuation TkGUIFactory._teardown: one of the four
deferred actions the tag processors install. -/
inductive Teardown where
  | openW (ty : WidgetType)
  | closeW
  | openClose (ty : WidgetType)
  | callF (modName funcName : Name)

/-- The factory-level history: a commit of the pending continuation with the
accumulated arguments (the _call_teardown invocation), and the external call
of a dereferenced function (a committed call continuation). -/
inductive Event where
  | committed (t : Teardown) (args : List Value) (kwargs : KW)
  | externalCall (modName funcName : Name) (args : List Value) (kwargs : KW)

/-- Whether a factory event is a continuation commit. -/
def Event.isCommit : Event → Bool
  | .committed _ _ _ => true
  | .externalCall _ _ _ _ => false

/-- TkGUIFactory state: the import table (alias to fully qualified module
name; the resolved module handle is external), the held builder, the
accumulated positional and keyword arguments, the pending continuation, and
the recorded factory events. -/
structure FactoryState where
  imported : List (Name × Name)
  builder : BuilderState
  args : List Value
  kwargs : KW
  teardown : Option Teardown
  events : List Event

/-- The factory state after TkGUIFactory.__init__. -/
def initialFactory : FactoryState :=
  { imported := [], builder := initialBuilder, args := [], kwargs := [],
    teardown := none, events := [] }

/-- TkGUIFactory._WIDGETS: widget tag names to widget types. -/
def WIDGETS : List (Name × WidgetType) :=
  [("root".data, .tk_Tk), ("frame".data, .tk_Frame), ("label".data, .tk_Label),
   ("entry".data, .tk_Entry), ("text".data, .tk_Text), ("canvas".data, .tk_Canvas),
   ("button".data, .tk_Button), ("radio".data, .tk_Radiobutton),
   ("check".data, .tk_Checkbutton), ("combo".data, .ttk_Combobox)]

/-- TkGUIFactory._get_widget_type: unknown names fail with the
invalid-widget condition. -/
def get_widget_type (n : Name) : Except Err WidgetType :=
  match lookupN WIDGETS n with
  | some ty => .ok ty
  | none => .error .invalidWidget

/-- _open_and_close_widget_of_type's division of keyword arguments: items
before the layout key go to the opener, the layout item and everything after
it go to the closer. -/
def splitKwAtLayout : KW → KW × KW
  | [] => ([], [])
  | (k, v) :: rest =>
    if k = LAYOUT_KEY then ([], (k, v) :: rest)
    else
      match splitKwAtLayout rest with
      | (o, c) => ((k, v) :: o, c)

/-- Invoke a pending continuation with the accumulated arguments: the three
widget continuations drive the builder
(_open_widget_of_type, _close_current_widget, _open_and_close_widget_of_type)
and a function continuation calls the dereferenced external function. -/
def run_teardown (st : FactoryState) (t : Teardown) (args : List Value) (kwargs : KW) :
    Except Err FactoryState :=
  match t with
  | .openW ty =>
    match open_widget st.builder ty args kwargs with
    | .error e => .error e
    | .ok b => .ok { st with builder := b }
  | .closeW =>
    match close_widget st.builder args kwargs with
    | .error e => .error e
    | .ok b => .ok { st with builder := b }
  | .openClose ty =>
    match open_widget st.builder ty args (splitKwAtLayout kwargs).1 with
    | .error e => .error e
    | .ok b =>
      match close_widget b [] (splitKwAtLayout kwargs).2 with
      | .error e => .error e
      | .ok b' => .ok { st with builder := b' }
  | .callF m f =>
    .ok { st with events := st.events ++ [.externalCall m f args kwargs] }

/-- TkGUIFactory._call_teardown: when a continuation is pending, commit it
with the accumulated arguments and re-initialize the argument accumulators
(_init_arguments); the continuation slot itself is left to be overwritten by
the caller. -/
def call_teardown (st : FactoryState) : Except Err FactoryState :=
  match st.teardown with
  | none => .ok st
  | some t =>
    match run_teardown
        { st with events := st.events ++ [.committed t st.args st.kwargs] }
        t st.args st.kwargs with
    | .error e => .error e
    | .ok st' => .ok { st' with args := [], kwargs := [] }

/-- TkGUIFactory._process_opener: commit, look the lowercased name up, and
install an open continuation. -/
def process_opener (st : FactoryState) (value : Name) : Except Err FactoryState :=
  match call_teardown st with
  | .error e => .error e
  | .ok st' =>
    match get_widget_type (pyLower value) with
    | .error e => .error e
    | .ok ty => .ok { st' with teardown := some (.openW ty) }

/-- TkGUIFactory._process_closer: commit and install a close
continuation. -/
def process_closer (st : FactoryState) (_value : Name) : Except Err FactoryState :=
  match call_teardown st with
  | .error e => .error e
  | .ok st' => .ok { st' with teardown := some .closeW }

/-- TkGUIFactory._process_singlet: commit, look the (not lowercased) name
up, and install an open-and-close continuation. -/
def process_singlet (st : FactoryState) (value : Name) : Except Err FactoryState :=
  match call_teardown st with
  | .error e => .error e
  | .ok st' =>
    match get_widget_type value with
    | .error e => .error e
    | .ok ty => .ok { st' with teardown := some (.openClose ty) }

/-- TkGUIFactory._import_module: a dot-leading path is a relative import and
is rejected with a ModuleNotFoundError; the import itself is an external
effect modelled as succeeding, after which the alias (or the last dotted
component) is mapped to the module name. -/
def import_module (st : FactoryState) (nm : Name) (aliasName : Option Name) :
    Except Err FactoryState :=
  if ['.'].isPrefixOf nm then .error .moduleNotFound
  else
    let key :=
      match aliasName with
      | some a => a
      | none => (splitOnChar '.' nm).getLastD []
    .ok { st with imported := dictSetN st.imported key nm }

/-- TkGUIFactory._process_call: split the payload on whitespace (an empty
payload fails the unpacking); an import keyword performs the import with the
words other than the as-keyword (a wrong argument count is a TypeError);
otherwise dereference the function and install it as the continuation
without committing the pending one. -/
def process_call (st : FactoryState) (value : Name) : Except Err FactoryState :=
  match pySplitWs value with
  | [] => .error .valueError
  | fn :: sent =>
    if fn = "import".data then
      match sent.filter (fun x => x ≠ "as".data) with
      | [n] => import_module st n none
      | [n, a] => import_module st n (some a)
      | _ => .error .typeError
    else
      match deference st.imported fn with
      | .error e => .error e
      | .ok (m, f) => .ok { st with teardown := some (.callF m f) }

/-- TkGUIFactory._process_argument: an argument with no pending continuation
is the incoherent-argument condition; a payload containing the assignment
operator is split by str.split (the unpacking into exactly a key and a value
fails with ValueError when the operator occurs more than once) and stored as
a keyword argument; otherwise the evaluated payload is appended as a
positional argument. -/
def process_argument (st : FactoryState) (value : Name) : Except Err FactoryState :=
  if st.teardown.isNone then .error .incoherentArgument
  else if '=' ∈ value then
    match splitOnChar '=' value with
    | [k, v] =>
      match evaluate st.imported v with
      | .error e => .error e
      | .ok ev => .ok { st with kwargs := dictSetN st.kwargs k ev }
    | _ => .error .valueError
  else
    match evaluate st.imported value with
    | .error e => .error e
    | .ok ev => .ok { st with args := st.args ++ [ev] }

/-- The five-way dispatch TkGUIFactory._TAG_DISPATCH on the tag's leading
marker; an unknown marker is a KeyError on the dispatch table. -/
def processTag (st : FactoryState) (sym : Char) (value : Name) : Except Err FactoryState :=
  if sym = '\\' then process_opener st value
  else if sym = '/' then process_closer st value
  else if sym = '|' then process_singlet st value
  else if sym = '$' then process_call st value
  else if sym = ',' then process_argument st value
  else .error .keyError

/-- One iteration of the loop in TkGUIFactory.to_gui: an empty tag fails the
leading-character subscript with IndexError, otherwise the marker dispatch
runs on the stripped remainder. -/
def processTagStr (st : FactoryState) (tag : Name) : Except Err FactoryState :=
  match tag with
  | [] => .error .indexError
  | sym :: rest => processTag st sym (stripWs rest)

/-- TkGUIFactory.to_gui on string content: tokenize, dispatch every tag,
commit the final pending continuation, and finalize the builder. -/
def to_gui (st : FactoryState) (text : List Char) : Except Err (Option GUIState × FactoryState) :=
  match (tokenize text).foldlM processTagStr st with
  | .error e => .error e
  | .ok st' =>
    match call_teardown st' with
    | .error e => .error e
    | .ok st'' =>
      match finalize_gui st''.builder with
      | .error e => .error e
      | .ok (g, b) => .ok (g, { st'' with builder := b })

/-- The list literal of the spec's first evaluation example. -/
def exList1 : Name := '{' :: ("1:2:3".data ++ ['}'])

/-- The list literal of the spec's second evaluation example. -/
def exList2 : Name := '{' :: ("1.5:True:".data ++ ['"', 'x', '"', '}'])

/-- A builder in which exactly a root widget has been opened. -/
def bRooted : BuilderState :=
  match open_widget initialBuilder .tk_Tk [] [] with
  | .ok b => b
  | .error _ => initialBuilder

/-- The gui held by bRooted. -/
def gRooted : GUIState := { named := [], rootId := 0, rootArgs := [], rootConfig := [] }

/-- bRooted after additionally opening a frame inside the root. -/
def bRootedFrame : BuilderState :=
  match open_widget bRooted .tk_Frame [] [] with
  | .ok b => b
  | .error _ => bRooted

/-- A factory holding a pending open continuation, an accumulated positional
argument and an import of module mod under alias m. -/
def stCall : FactoryState :=
  { initialFactory with imported := [("m".data, "mod".data)],
                        teardown := some (.openW .tk_Frame), args := [.vInt 1] }

/-- A factory holding a pending close continuation and an accumulated
positional argument. -/
def stClose : FactoryState :=
  { initialFactory with teardown := some .closeW, args := [.vInt 7] }

/-- The factory state reached from stClose by processing an opener tag. -/
def stClose' : FactoryState :=
  match processTag stClose '\\' ("frame".data) with
  | .ok s => s
  | .error _ => stClose

/-- A small sample document for the tokenizer. -/
def sampleDoc : Name := "\\root ,a=1 /".data

/-- The builder state reached by opening a radio widget with only a
shared-variable name from a builder holding gui g: the registry gains the
obtain-or-create variable under the name, the counter advances past the
variable and the widget, and the widget is bound to the variable. -/
def radioStep (b : BuilderState) (g : GUIState) (v : Name) : BuilderState :=
  push_stack
    { b with
        gui := some { g with named := dictSetV g.named (.vStr v) ((lookupV g.named (.vStr v)).getD (.intVar b.fresh)) },
        fresh := b.fresh + 2,
        bindings := b.bindings ++ [(b.fresh + 1, ((lookupV g.named (.vStr v)).getD (.intVar b.fresh)).objId)] }
    (.widget (b.fresh + 1) (WidgetType.tag .tk_Radiobutton))

/-! ## Tokenizer lemmas -/

/-- The scanning loop always yields at least the final buffer. -/
theorem parseLoop_ne_nil (reserved : List Char) :
    ∀ (rest output : List Char), parseLoop reserved rest output ≠ [] := by
  intro rest
  induction rest with
  | nil => intro output; simp [parseLoop]
  | cons ch rest ih =>
    intro output
    rw [parseLoop]
    split
    · simp
    · exact ih _

/-- Dropping a prefix cannot remove a final element the predicate
rejects. -/
theorem dropWhile_concat_ne (p : Char → Bool) (c : Char) (hc : p c = false) :
    ∀ xs : List Char, ∃ u, (xs ++ [c]).dropWhile p = u ++ [c] := by
  intro xs
  induction xs with
  | nil => exact ⟨[], by simp [List.dropWhile_cons, hc]⟩
  | cons x xs ih =>
    by_cases hx : p x = true
    · obtain ⟨u, hu⟩ := ih
      exact ⟨u, by simp [List.dropWhile_cons, hx, hu]⟩
    · exact ⟨x :: xs, by simp [List.dropWhile_cons, hx]⟩

/-- Stripping keeps a non-whitespace head in place. -/
theorem stripWs_cons_head (c : Char) (s : Name) (hc : isPySpace c = false) :
    ∃ u, stripWs (c :: s) = c :: u := by
  unfold stripWs stripEnds
  rw [List.dropWhile_cons, if_neg (by simp [hc]), List.reverse_cons]
  obtain ⟨u, hu⟩ := dropWhile_concat_ne isPySpace c hc s.reverse
  rw [hu, List.reverse_append]
  exact ⟨u.reverse, by simp⟩

/-- Once the buffer starts with a reserved non-whitespace character, every
tag the loop emits starts with a reserved character. -/
theorem parseLoop_heads (reserved : List Char)
    (hres : ∀ r ∈ reserved, isPySpace r = false) :
    ∀ (rest output : List Char) (c₀ : Char), output.head? = some c₀ →
      c₀ ∈ reserved →
      ∀ tag ∈ parseLoop reserved rest output, ∃ c, c ∈ reserved ∧ tag.head? = some c := by
  intro rest
  induction rest with
  | nil =>
    intro output c₀ h0 hmem tag htag
    simp only [parseLoop, List.mem_singleton] at htag
    subst htag
    exact ⟨c₀, hmem, h0⟩
  | cons ch rest ih =>
    intro output c₀ h0 hmem tag htag
    rw [parseLoop] at htag
    split at htag
    · rename_i hcond
      rcases List.mem_cons.mp htag with h | h
      · subst h
        cases output with
        | nil => simp at h0
        | cons a tl =>
          have ha : a = c₀ := by simpa using h0
          subst ha
          obtain ⟨u, hu⟩ := stripWs_cons_head a tl (hres a hmem)
          exact ⟨a, hmem, by rw [hu]; rfl⟩
      · exact ih [ch] ch rfl hcond.1 tag h
    · apply ih (output ++ [ch]) c₀ ?_ hmem tag htag
      cases output with
      | nil => simp at h0
      | cons a tl => simpa using h0

/-- Every tag the loop emits other than the first starts with a reserved
character. -/
theorem parseLoop_tail_heads (reserved : List Char)
    (hres : ∀ r ∈ reserved, isPySpace r = false) :
    ∀ (rest output : List Char),
      ∀ tag ∈ (parseLoop reserved rest output).tail,
        ∃ c, c ∈ reserved ∧ tag.head? = some c := by
  intro rest
  induction rest with
  | nil => intro output tag htag; simp [parseLoop] at htag
  | cons ch rest ih =>
    intro output tag htag
    rw [parseLoop] at htag
    split at htag
    · rename_i hcond
      simp only [List.tail_cons] at htag
      exact parseLoop_heads reserved hres rest [ch] ch rfl hcond.1 tag htag
    · exact ih _ tag htag

/-- A string of whitespace characters strips to nothing. -/
theorem stripWs_eq_nil (s : Name) (h : ∀ c ∈ s, isPySpace c = true) :
    stripWs s = [] := by
  unfold stripWs stripEnds
  have h1 : s.dropWhile isPySpace = [] :=
    List.dropWhile_eq_nil_iff.mpr (by intro x hx; simpa using h x hx)
  rw [h1]
  rfl

/-- Claim C10: the tokenizer always emits the final buffer, so no document
yields an empty tag sequence; an empty or whitespace-only document yields
exactly one tag, the empty string; and every emitted tag after the first
begins with a reserved marker character. -/
theorem tokenizer_tags_spec (text : List Char) :
    tokenize text ≠ [] ∧
    ((∀ c ∈ text, isPySpace c = true) → tokenize text = [[]]) ∧
    (∀ tag ∈ (tokenize text).tail, ∃ c, c ∈ RESERVED ∧ tag.head? = some c) := by
  refine ⟨?_, ?_, ?_⟩
  · unfold tokenize parseTags
    exact parseLoop_ne_nil _ _ _
  · intro hws
    unfold tokenize parseTags
    have hnil : stripWs (processText text) = [] := by
      apply stripWs_eq_nil
      intro c hc
      unfold processText at hc
      exact hws c (List.mem_of_mem_filter hc)
    rw [hnil]
    rfl
  · intro tag htag
    unfold tokenize parseTags at htag
    exact parseLoop_tail_heads RESERVED (by decide) _ _ tag htag

/-- Witness for C10: a whitespace-only document yields exactly the empty
tag, and the second tag of the sample document starts with a reserved
marker. -/
theorem tokenizer_tags_spec_wit :
    tokenize (" ".data) = [[]] ∧
    (∃ c, c ∈ RESERVED ∧ (",a=1".data : Name).head? = some c) := by
  constructor
  · exact (tokenizer_tags_spec (" ".data)).2.1 (by decide)
  · exact (tokenizer_tags_spec sampleDoc).2.2 (",a=1".data) (by decide)

/-! ## Evaluator claims -/

/-- Claim C2: the boolean branch of the evaluator.  The literal True
evaluates to the boolean true, but the literal False also evaluates to the
boolean true, because the source computes bool(stripped), the truthiness of
the (nonempty) matched literal, instead of which literal matched. -/
theorem evaluate_boolean_literals :
    evaluate [] ("True".data) = .ok (.vBool true) ∧
    evaluate [] ("False".data) = .ok (.vBool true) := ⟨rfl, rfl⟩

/-- Claim C3: the numeric branch of the evaluator.  A digit string without a
decimal point becomes an integer, but a string with a decimal point is not
isnumeric (the decimal point is not a numeric character), so the float
branch is unreachable and the literal 1.5 falls through to the
quote-stripping string branch. -/
theorem evaluate_numeric_literals :
    evaluate [] ("7".data) = .ok (.vInt 7) ∧
    evaluate [] ("1.5".data) = .ok (.vStr ("1.5".data)) := ⟨rfl, rfl⟩

/-- Claim C9: list literals split on the delimiter and evaluate each element
recursively into an ordered sequence; the all-integer example matches the
spec, but in the mixed example the element 1.5 evaluates to the string 1.5
rather than a floating point value (same isnumeric slip as C3). -/
theorem evaluate_list_literals :
    evaluate [] exList1 = .ok (.vList [.vInt 1, .vInt 2, .vInt 3]) ∧
    evaluate [] exList2 =
      .ok (.vList [.vStr ("1.5".data), .vBool true, .vStr ("x".data)]) := ⟨rfl, rfl⟩

/-! ## Argument-processing lemmas and claims -/

/-- Dereferencing can only fail with a lookup or unpacking error. -/
theorem deference_ne_incoherent (imported : List (Name × Name)) (nm : Name) :
    deference imported nm ≠ .error .incoherentArgument := by
  unfold deference
  split
  · split <;> simp
  · simp

/-- Mapping a function over an Except value does not change which error it
is. -/
theorem except_map_error {α β : Type} (f : α → β) (x : Except Err α) (e : Err)
    (h : x.map f = .error e) : x = .error e := by
  cases x with
  | error e' => simpa [Except.map] using h
  | ok v => simp [Except.map] at h

/-- Sequencing evaluation results only produces an error present in the
list. -/
theorem collectE_ne (bad : Err) :
    ∀ l : List (Except Err Value), (∀ x ∈ l, x ≠ .error bad) →
      collectE l ≠ .error bad := by
  intro l
  induction l with
  | nil => intro _ h; simp [collectE] at h
  | cons x xs ih =>
    intro hx
    cases x with
    | error e =>
      have := hx (.error e) (List.mem_cons_self _ _)
      simpa [collectE] using this
    | ok v =>
      intro h
      simp only [collectE] at h
      exact ih (fun y hy => hx y (List.mem_cons_of_mem _ hy)) (except_map_error _ _ _ h)

/-- The evaluator never raises the incoherent-argument condition. -/
theorem evaluateF_ne_incoherent (imported : List (Name × Name)) :
    ∀ (fuel : Nat) (s : Name),
      evaluateF imported fuel s ≠ .error .incoherentArgument := by
  intro fuel
  induction fuel with
  | zero => intro s h; simp [evaluateF] at h
  | succ n ih =>
    intro s h
    rw [evaluateF] at h
    split at h
    · exact deference_ne_incoherent _ _ (except_map_error _ _ _ h)
    · split at h
      · exact deference_ne_incoherent _ _ (except_map_error _ _ _ h)
      · split at h
        · have hcol := except_map_error _ _ _ h
          apply collectE_ne .incoherentArgument _ _ hcol
          intro x hx
          obtain ⟨t, _, ht⟩ := List.mem_map.mp hx
          rw [← ht]
          exact ih t
        · split at h
          · simp at h
          · split at h
            · split at h <;> simp at h
            · simp at h

/-- The evaluator entry point never raises the incoherent-argument
condition. -/
theorem evaluate_ne_incoherent (imported : List (Name × Name)) (s : Name) :
    evaluate imported s ≠ .error .incoherentArgument :=
  evaluateF_ne_incoherent imported _ s

/-- The comma marker dispatches to the argument processor. -/
theorem processTag_comma (st : FactoryState) (v : Name) :
    processTag st ',' v = process_argument st v := by
  unfold processTag
  rw [if_neg (by decide), if_neg (by decide), if_neg (by decide), if_neg (by decide),
    if_pos rfl]

/-- Claim C8: an argument tag with no pending continuation fails with the
incoherent-argument condition, and an argument tag processed while a
continuation is pending never raises that condition. -/
theorem incoherent_argument_condition (st : FactoryState) (v : Name) :
    (st.teardown = none → processTag st ',' v = .error .incoherentArgument) ∧
    (∀ t, st.teardown = some t →
      processTag st ',' v ≠ .error .incoherentArgument) := by
  constructor
  · intro hn
    rw [processTag_comma]
    unfold process_argument
    rw [hn]
    rfl
  · intro t ht h
    rw [processTag_comma] at h
    unfold process_argument at h
    rw [ht] at h
    simp only [Option.isNone_some, Bool.false_eq_true, if_false] at h
    split at h
    · split at h
      · split at h
        · rename_i e heval
          injection h with he
          subst he
          exact evaluate_ne_incoherent _ _ heval
        · simp at h
      · simp at h
    · split at h
      · rename_i e heval
        injection h with he
        subst he
        exact evaluate_ne_incoherent _ _ heval
      · simp at h

/-- Witness for C8: the freshly initialized factory rejects an argument tag
with the incoherent-argument condition, while a factory with a pending close
continuation does not raise it. -/
theorem incoherent_argument_condition_wit :
    processTag initialFactory ',' ("x".data) = .error .incoherentArgument ∧
    processTag stClose ',' ("x".data) ≠ .error .incoherentArgument := by
  constructor
  · exact (incoherent_argument_condition initialFactory ("x".data)).1 rfl
  · exact (incoherent_argument_condition stClose ("x".data)).2 .closeW rfl

/-- Counterexample for C7: with a continuation pending, the payload a=b=c
contains the assignment operator, and the claim says it is split at the
first occurrence into the key a and the value b=c; the code instead splits
at every occurrence and the unpacking of three pieces into two names fails
with ValueError, so no keyword argument is stored. -/
theorem argument_multi_assign_cx :
    stCall.teardown = some (.openW .tk_Frame) ∧
    processTag stCall ',' ("a=b=c".data) = .error .valueError := ⟨rfl, rfl⟩

/-- Claim C7 (amended): with a continuation pending, a payload containing
the assignment operator exactly once is split there, the value part is
evaluated and stored as a keyword argument overwriting any prior value of
the key (dictSetN); a payload containing the operator more than once fails
the two-name unpacking with ValueError; a payload without the operator is
evaluated whole and appended as the next positional argument. -/
theorem process_argument_amended (st : FactoryState) (t : Teardown) (arg : Name)
    (ht : st.teardown = some t) :
    (∀ (k v : Name) (ev : Value), splitOnChar '=' arg = [k, v] → '=' ∈ arg →
      evaluate st.imported v = .ok ev →
      processTag st ',' arg = .ok { st with kwargs := dictSetN st.kwargs k ev }) ∧
    (∀ ev : Value, '=' ∉ arg → evaluate st.imported arg = .ok ev →
      processTag st ',' arg = .ok { st with args := st.args ++ [ev] }) ∧
    ('=' ∈ arg → (splitOnChar '=' arg).length ≠ 2 →
      processTag st ',' arg = .error .valueError) := by
  have hnone : st.teardown.isNone = false := by rw [ht]; rfl
  refine ⟨?_, ?_, ?_⟩
  · intro k v ev hsplit hin heval
    rw [processTag_comma]
    unfold process_argument
    rw [hnone]
    simp only [Bool.false_eq_true, if_false]
    rw [if_pos hin, hsplit]
    show ((match evaluate st.imported v with
      | Except.error e => Except.error e
      | Except.ok ev =>
        Except.ok { st with kwargs := dictSetN st.kwargs k ev }) :
          Except Err FactoryState) =
        Except.ok { st with kwargs := dictSetN st.kwargs k ev }
    rw [heval]
  · intro ev hnotin heval
    rw [processTag_comma]
    unfold process_argument
    rw [hnone]
    simp only [Bool.false_eq_true, if_false]
    rw [if_neg hnotin, heval]
  · intro hin hlen
    rw [processTag_comma]
    unfold process_argument
    rw [hnone]
    simp only [Bool.false_eq_true, if_false]
    rw [if_pos hin]
    rcases hsp : splitOnChar '=' arg with _ | ⟨a, _ | ⟨b, _ | ⟨c, tl⟩⟩⟩
    · rfl
    · rfl
    · exact absurd (by rw [hsp]; rfl) hlen
    · rfl

/-- Witness for C7 (amended): a single assignment stores a keyword argument,
a plain payload appends a positional argument, and a double assignment fails
with ValueError. -/
theorem process_argument_amended_wit :
    processTag stClose ',' ("a=1".data) =
      .ok { stClose with kwargs := dictSetN stClose.kwargs ("a".data) (.vInt 1) } ∧
    processTag stClose ',' ("5".data) =
      .ok { stClose with args := stClose.args ++ [.vInt 5] } ∧
    processTag stClose ',' ("a=b=c".data) = .error .valueError := by
  refine ⟨?_, ?_, ?_⟩
  · exact (process_argument_amended stClose .closeW ("a=1".data) rfl).1
      ("a".data) ("1".data) (.vInt 1) rfl (by decide) rfl
  · exact (process_argument_amended stClose .closeW ("5".data) rfl).2.1
      (.vInt 5) (by decide) rfl
  · exact (process_argument_amended stClose .closeW ("a=b=c".data) rfl).2.2
      (by decide) (by decide)

/-! ## Continuation-commit lemmas and claims -/

/-- The backslash marker dispatches to the opener processor. -/
theorem processTag_opener (st : FactoryState) (v : Name) :
    processTag st '\\' v = process_opener st v := by
  unfold processTag
  rw [if_pos rfl]

/-- The slash marker dispatches to the closer processor. -/
theorem processTag_closer (st : FactoryState) (v : Name) :
    processTag st '/' v = process_closer st v := by
  unfold processTag
  rw [if_neg (by decide), if_pos rfl]

/-- The pipe marker dispatches to the singlet processor. -/
theorem processTag_singlet (st : FactoryState) (v : Name) :
    processTag st '|' v = process_singlet st v := by
  unfold processTag
  rw [if_neg (by decide), if_neg (by decide), if_pos rfl]

/-- The dollar marker dispatches to the call processor. -/
theorem processTag_call (st : FactoryState) (v : Name) :
    processTag st '$' v = process_call st v := by
  unfold processTag
  rw [if_neg (by decide), if_neg (by decide), if_neg (by decide), if_pos rfl]

/-- Running a continuation never touches the accumulated arguments and adds
no commit event of its own (a call continuation records only its external
call). -/
theorem run_teardown_spec (st st' : FactoryState) (t : Teardown) (a : List Value)
    (k : KW) (h : run_teardown st t a k = .ok st') :
    st'.args = st.args ∧ st'.kwargs = st.kwargs ∧
    ∃ extra, st'.events = st.events ++ extra ∧ ∀ e ∈ extra, e.isCommit = false := by
  cases t with
  | openW ty =>
    simp only [run_teardown] at h
    split at h
    · exact absurd h (by simp)
    · injection h with h'
      subst h'
      exact ⟨rfl, rfl, [], by simp, by simp⟩
  | closeW =>
    simp only [run_teardown] at h
    split at h
    · exact absurd h (by simp)
    · injection h with h'
      subst h'
      exact ⟨rfl, rfl, [], by simp, by simp⟩
  | openClose ty =>
    simp only [run_teardown] at h
    split at h
    · exact absurd h (by simp)
    · split at h
      · exact absurd h (by simp)
      · injection h with h'
        subst h'
        exact ⟨rfl, rfl, [], by simp, by simp⟩
  | callF m f =>
    simp only [run_teardown] at h
    injection h with h'
    subst h'
    refine ⟨rfl, rfl, [.externalCall m f a k], rfl, ?_⟩
    intro e he
    rw [List.mem_singleton] at he
    subst he
    rfl

/-- Committing a pending continuation records exactly one commit event with
the accumulated arguments and re-initializes the accumulators. -/
theorem call_teardown_spec (st st' : FactoryState) (t : Teardown)
    (ht : st.teardown = some t) (h : call_teardown st = .ok st') :
    (∃ extra, st'.events = st.events ++ .committed t st.args st.kwargs :: extra ∧
      ∀ e ∈ extra, e.isCommit = false) ∧
    st'.args = [] ∧ st'.kwargs = [] := by
  unfold call_teardown at h
  split at h
  · rename_i heq
    rw [ht] at heq
    exact absurd heq (by simp)
  · rename_i t' heq
    rw [ht] at heq
    injection heq with heq'
    subst heq'
    split at h
    · exact absurd h (by simp)
    · rename_i st₁ hrun
      injection h with h'
      subst h'
      obtain ⟨ha, hk, extra, hev, hnc⟩ := run_teardown_spec _ _ _ _ _ hrun
      refine ⟨⟨extra, ?_, hnc⟩, rfl, rfl⟩
      show st₁.events = st.events ++ .committed t st.args st.kwargs :: extra
      rw [hev]
      simp

/-- Counterexample for C1: from a factory with a pending open continuation
and an accumulated positional argument, processing a call tag succeeds while
recording no commit event, leaving the accumulated argument in place, and
silently replacing the pending continuation. -/
theorem call_tag_skips_commit_cx :
    stCall.teardown = some (.openW .tk_Frame) ∧
    stCall.args = [.vInt 1] ∧
    processTag stCall '$' ("m.f".data) =
      .ok { stCall with teardown := some (.callF ("mod".data) ("f".data)) } ∧
    ({ stCall with teardown := some (.callF ("mod".data) ("f".data)) } :
        FactoryState).events = [] :=
  ⟨rfl, rfl, rfl, rfl⟩

/-- Claim C1 (amended): processing an opener, closer or singlet tag with a
continuation pending commits it exactly once, with the accumulated
positional and keyword arguments, and clears the accumulators before the new
continuation is installed; a call tag commits nothing: it leaves the event
log and the accumulated arguments untouched (an import tag performs only
the import side effect, and a function call replaces the pending
continuation without committing it). -/
theorem commit_and_clear_amended (st st' : FactoryState) (v : Name) (t : Teardown)
    (ht : st.teardown = some t) :
    ((processTag st '\\' v = .ok st' ∨ processTag st '/' v = .ok st' ∨
        processTag st '|' v = .ok st') →
      ∃ extra, st'.events = st.events ++ .committed t st.args st.kwargs :: extra ∧
        (∀ e ∈ extra, e.isCommit = false) ∧ st'.args = [] ∧ st'.kwargs = []) ∧
    (processTag st '$' v = .ok st' →
      st'.events = st.events ∧ st'.args = st.args ∧ st'.kwargs = st.kwargs) := by
  constructor
  · intro hor
    rcases hor with h | h | h
    · rw [processTag_opener] at h
      unfold process_opener at h
      split at h
      · exact absurd h (by simp)
      · rename_i st₁ hct
        split at h
        · exact absurd h (by simp)
        · injection h with h'
          subst h'
          obtain ⟨⟨extra, hev, hnc⟩, ha, hk⟩ := call_teardown_spec st st₁ t ht hct
          exact ⟨extra, hev, hnc, ha, hk⟩
    · rw [processTag_closer] at h
      unfold process_closer at h
      split at h
      · exact absurd h (by simp)
      · rename_i st₁ hct
        injection h with h'
        subst h'
        obtain ⟨⟨extra, hev, hnc⟩, ha, hk⟩ := call_teardown_spec st st₁ t ht hct
        exact ⟨extra, hev, hnc, ha, hk⟩
    · rw [processTag_singlet] at h
      unfold process_singlet at h
      split at h
      · exact absurd h (by simp)
      · rename_i st₁ hct
        split at h
        · exact absurd h (by simp)
        · injection h with h'
          subst h'
          obtain ⟨⟨extra, hev, hnc⟩, ha, hk⟩ := call_teardown_spec st st₁ t ht hct
          exact ⟨extra, hev, hnc, ha, hk⟩
  · intro h
    rw [processTag_call] at h
    unfold process_call at h
    split at h
    · exact absurd h (by simp)
    · split at h
      · split at h
        · unfold import_module at h
          split at h
          · exact absurd h (by simp)
          · injection h with h'
            subst h'
            exact ⟨rfl, rfl, rfl⟩
        · unfold import_module at h
          split at h
          · exact absurd h (by simp)
          · injection h with h'
            subst h'
            exact ⟨rfl, rfl, rfl⟩
        · exact absurd h (by simp)
      · split at h
        · exact absurd h (by simp)
        · injection h with h'
          subst h'
          exact ⟨rfl, rfl, rfl⟩

/-- Witness for C1 (amended): processing an opener tag on a factory with a
pending close continuation records exactly the one commit carrying the
accumulated argument and clears the accumulators. -/
theorem commit_and_clear_amended_wit :
    ∃ extra, stClose'.events =
        stClose.events ++ .committed .closeW stClose.args stClose.kwargs :: extra ∧
      (∀ e ∈ extra, e.isCommit = false) ∧ stClose'.args = [] ∧ stClose'.kwargs = [] :=
  (commit_and_clear_amended stClose stClose' ("frame".data) .closeW rfl).1 (Or.inl rfl)

/-! ## Builder claims -/

/-- Obtaining a shared variable can fail only on the attribute access of an
absent gui. -/
theorem get_var_errors (b : BuilderState) (kw : KW) (mk : Nat → TkObj) (e : Err)
    (h : get_var b kw mk = .error e) : e = .attributeError := by
  unfold get_var at h
  split at h
  · injection h with h'
    exact h'.symm
  · exact absurd h (by simp)

/-- Creating a variable-carrying widget can fail only with a keyword
collision or an absent gui. -/
theorem init_with_var_errors (b : BuilderState) (ty : WidgetType) (kw : KW)
    (mk : Nat → TkObj) (vk : Name) (e : Err)
    (h : init_with_var b ty kw mk vk = .error e) :
    e = .typeError ∨ e = .attributeError := by
  unfold init_with_var at h
  split at h
  · rename_i e' hgv
    injection h with h'
    subst h'
    exact Or.inr (get_var_errors _ _ _ _ hgv)
  · split at h
    · injection h with h'
      exact Or.inl h'.symm
    · exact absurd h (by simp)

/-- Registering a widget under a name can fail only on the subscript of an
absent gui. -/
theorem name_object_errors (b : BuilderState) (w : TkObj) (n : Option Value) (e : Err)
    (h : name_object b w n = .error e) : e = .typeError := by
  unfold name_object at h
  split at h
  · exact absurd h (by simp)
  · split at h
    · injection h with h'
      exact h'.symm
    · exact absurd h (by simp)

/-- The errors widget creation can produce: the duplicate-root condition
(only for the root type with an active current frame), a keyword collision,
or an absent gui. -/
theorem create_widget_errors (b : BuilderState) (ty : WidgetType) (args : List Value)
    (kw : KW) (e : Err) (h : create_widget_of_type b ty args kw = .error e) :
    (e = .duplicateRoot ∧ ty = .tk_Tk ∧ b.current ≠ none) ∨
      e = .typeError ∨ e = .attributeError := by
  cases ty <;> simp only [create_widget_of_type] at h
  case tk_Tk =>
    unfold init_root at h
    split at h
    · rename_i hcur
      injection h with h'
      exact Or.inl ⟨h'.symm, rfl, hcur⟩
    · exact absurd h (by simp)
  case tk_Radiobutton => exact Or.inr (init_with_var_errors _ _ _ _ _ _ h)
  case tk_Checkbutton => exact Or.inr (init_with_var_errors _ _ _ _ _ _ h)
  case ttk_Combobox =>
    split at h
    · rename_i e' hiv
      injection h with h'
      subst h'
      exact Or.inr (init_with_var_errors _ _ _ _ _ _ hiv)
    · exact absurd h (by simp)
  all_goals exact absurd h (by simp [init_widget])

/-- Claim C4: opening a non-root widget with no current frame fails with the
invalid-parent condition; opening a root widget while a frame is current
fails with the duplicate-root condition; an open satisfying both
preconditions raises neither condition. -/
theorem open_widget_conditions (b : BuilderState) (ty : WidgetType) (args : List Value)
    (kw : KW) :
    ((ty ≠ .tk_Tk ∧ b.current = none) →
      open_widget b ty args kw = .error .invalidParent) ∧
    ((ty = .tk_Tk ∧ b.current ≠ none) →
      open_widget b ty args kw = .error .duplicateRoot) ∧
    ((ty = .tk_Tk ↔ b.current = none) →
      open_widget b ty args kw ≠ .error .invalidParent ∧
      open_widget b ty args kw ≠ .error .duplicateRoot) := by
  refine ⟨?_, ?_, ?_⟩
  · intro hcond
    unfold open_widget
    rw [if_pos hcond]
  · rintro ⟨hty, hcur⟩
    subst hty
    unfold open_widget
    rw [if_neg (by simp)]
    have hcreate : create_widget_of_type b .tk_Tk args
        (pull_from_dict kw WIDGET_NAME_KEY none).2 = .error .duplicateRoot := by
      simp only [create_widget_of_type]
      unfold init_root
      rw [if_pos hcur]
    rw [hcreate]
  · intro hiff
    have hguard : ¬(ty ≠ .tk_Tk ∧ b.current = none) := by
      rintro ⟨h1, h2⟩
      exact h1 (hiff.mpr h2)
    constructor <;> intro h
    · unfold open_widget at h
      rw [if_neg hguard] at h
      split at h
      · rename_i e' hcr
        injection h with h'
        subst h'
        rcases create_widget_errors _ _ _ _ _ hcr with ⟨hd, _, _⟩ | he | he
        · exact absurd hd (by decide)
        · exact absurd he (by decide)
        · exact absurd he (by decide)
      · split at h
        · rename_i e' hno
          injection h with h'
          subst h'
          exact absurd (name_object_errors _ _ _ _ hno) (by decide)
        · simp at h
    · unfold open_widget at h
      rw [if_neg hguard] at h
      split at h
      · rename_i e' hcr
        injection h with h'
        subst h'
        rcases create_widget_errors _ _ _ _ _ hcr with ⟨_, hty, hcur⟩ | he | he
        · exact hcur (hiff.mp hty)
        · exact absurd he (by decide)
        · exact absurd he (by decide)
      · split at h
        · rename_i e' hno
          injection h with h'
          subst h'
          exact absurd (name_object_errors _ _ _ _ hno) (by decide)
        · simp at h

/-- Witness for C4: from the initial builder a frame open fails with the
invalid-parent condition, from the rooted builder a second root fails with
the duplicate-root condition, and a frame open in the rooted builder raises
neither. -/
theorem open_widget_conditions_wit :
    open_widget initialBuilder .tk_Frame [] [] = .error .invalidParent ∧
    open_widget bRooted .tk_Tk [] [] = .error .duplicateRoot ∧
    (open_widget bRooted .tk_Frame [] [] ≠ .error .invalidParent ∧
      open_widget bRooted .tk_Frame [] [] ≠ .error .duplicateRoot) := by
  refine ⟨?_, ?_, ?_⟩
  · exact (open_widget_conditions initialBuilder .tk_Frame [] []).1 (by decide)
  · exact (open_widget_conditions bRooted .tk_Tk [] []).2.1 (by decide)
  · exact (open_widget_conditions bRooted .tk_Frame [] []).2.2 (by decide)

/-- A default close under a parent frame computes to a pull of the stack
after recording the pack attachment of the current widget. -/
theorem close_default (b : BuilderState) (p c : TkObj) (hp : b.parent = some p)
    (hc : b.current = some c) :
    close_widget b [] [] =
      .ok (pull_stack
        { b with events := b.events ++ [.attach c.objId DEFAULT_LAYOUT [] []] }) := by
  unfold close_widget
  rw [hp]
  simp only [reduceCtorEq, reduceIte]
  have hpull1 : (pull_from_dict ([] : KW) LAYOUT_KEY (some (.vStr DEFAULT_LAYOUT))).1 =
      some (.vStr DEFAULT_LAYOUT) := rfl
  have hpull2 : (pull_from_dict ([] : KW) LAYOUT_KEY (some (.vStr DEFAULT_LAYOUT))).2 =
      ([] : KW) := rfl
  have hplc : perform_layout_config b DEFAULT_LAYOUT [] = .ok b := by
    unfold perform_layout_config
    rw [if_neg (by decide)]
  simp only [hpull1, hpull2, hplc, hc]
  rw [hp]

/-- The closing loop of finalize_gui terminates successfully whenever the
current frame exists below any parent frame, preserves the held gui, and
appends only default pack attachments to the event log. -/
theorem finalize_loop_spec :
    ∀ (n : Nat) (b : BuilderState), measureB b ≤ n →
      (b.parent ≠ none → b.current ≠ none) →
      ∃ b' l, finalize_loop b = .ok b' ∧ b'.gui = b.gui ∧
        b'.events = b.events ++ l ∧
        (∀ e ∈ l, ∃ i, e = .attach i DEFAULT_LAYOUT [] []) := by
  intro n
  induction n with
  | zero =>
    intro b hm hinv
    have hp : b.parent = none := by
      by_contra hne
      unfold measureB at hm
      rw [if_neg hne] at hm
      omega
    refine ⟨b, [], ?_, rfl, by simp, by simp⟩
    unfold finalize_loop
    rw [dif_pos hp]
  | succ n ih =>
    intro b hm hinv
    cases hp : b.parent with
    | none =>
      refine ⟨b, [], ?_, rfl, by simp, by simp⟩
      unfold finalize_loop
      rw [dif_pos hp]
    | some p =>
      have hc : b.current ≠ none := hinv (by rw [hp]; simp)
      rcases Option.ne_none_iff_exists'.mp hc with ⟨c, hcc⟩
      have hclose := close_default b p c hp hcc
      have hm1 : measureB (pull_stack
          { b with events := b.events ++ [.attach c.objId DEFAULT_LAYOUT [] []] }) ≤ n := by
        have hlt : measureB (pull_stack
            { b with events := b.events ++ [.attach c.objId DEFAULT_LAYOUT [] []] }) + 1 ≤
            measureB b := by
          unfold measureB pull_stack
          simp only
          rw [hp]
          rcases List.eq_nil_or_concat b.widget_stack with hs | ⟨l, x, hs⟩
          · simp [hs]
          · simp [hs, List.getLast?_concat]
        unfold measureB at hm hlt ⊢
        omega
      have hinv1 : (pull_stack
          { b with events := b.events ++ [.attach c.objId DEFAULT_LAYOUT [] []] }).parent ≠
            none →
          (pull_stack
          { b with events := b.events ++ [.attach c.objId DEFAULT_LAYOUT [] []] }).current ≠
            none := by
        intro _
        show ({ b with events := b.events ++ [.attach c.objId DEFAULT_LAYOUT [] []] } :
          BuilderState).parent ≠ none
        simp [hp]
      obtain ⟨b', l, hfb, hg, hev, hl⟩ := ih _ hm1 hinv1
      refine ⟨b', .attach c.objId DEFAULT_LAYOUT [] [] :: l, ?_, ?_, ?_, ?_⟩
      · unfold finalize_loop
        rw [dif_neg (by rw [hp]; simp)]
        split
        · rename_i e heq
          rw [hclose] at heq
          simp at heq
        · rename_i b'' heq
          rw [hclose] at heq
          injection heq with heq'
          rw [← heq']
          exact hfb
      · rw [hg]
        rfl
      · rw [hev]
        show (b.events ++ [BEvent.attach c.objId DEFAULT_LAYOUT [] []]) ++ l =
          b.events ++ BEvent.attach c.objId DEFAULT_LAYOUT [] [] :: l
        simp
      · intro e he
        rcases List.mem_cons.mp he with he | he
        · exact ⟨c.objId, he⟩
        · exact hl e he

/-- Claim C5: finalize on a builder holding no gui fails with the
absent-root condition; otherwise it repeatedly performs a default
no-argument close until no parent frame remains (each still-open widget is
attached with the default pack layout), returns the held gui, and resets the
widget stack, current frame, parent frame and gui reference. -/
theorem finalize_gui_spec (b : BuilderState) :
    (b.gui = none → finalize_gui b = .error .absentRoot) ∧
    (∀ g : GUIState, b.gui = some g → (b.parent ≠ none → b.current ≠ none) →
      ∃ b' l, finalize_gui b = .ok (some g, b') ∧
        b'.widget_stack = [] ∧ b'.current = none ∧ b'.parent = none ∧ b'.gui = none ∧
        b'.events = b.events ++ l ∧
        (∀ e ∈ l, ∃ i, e = .attach i DEFAULT_LAYOUT [] [])) := by
  constructor
  · intro hn
    unfold finalize_gui
    rw [hn]
  · intro g hg hinv
    obtain ⟨b₁, l, hloop, hgui, hev, hl⟩ := finalize_loop_spec (measureB b) b le_rfl hinv
    refine ⟨{ b₁ with widget_stack := [], current := none, parent := none, gui := none },
      l, ?_, rfl, rfl, rfl, rfl, hev, hl⟩
    unfold finalize_gui
    rw [hg, hloop]
    show Except.ok (b₁.gui,
        { b₁ with widget_stack := [], current := none, parent := none, gui := none }) =
      Except.ok (some g,
        { b₁ with widget_stack := [], current := none, parent := none, gui := none })
    rw [hgui, hg]

/-- Witness for C5: a builder that never opened a root fails with the
absent-root condition, and a builder holding a root with an open frame
finalizes to its gui with a fully reset state. -/
theorem finalize_gui_spec_wit :
    finalize_gui initialBuilder = .error .absentRoot ∧
    ∃ b' l, finalize_gui bRootedFrame = .ok (some gRooted, b') ∧
      b'.widget_stack = [] ∧ b'.current = none ∧ b'.parent = none ∧ b'.gui = none ∧
      b'.events = bRootedFrame.events ++ l ∧
      (∀ e ∈ l, ∃ i, e = .attach i DEFAULT_LAYOUT [] []) :=
  ⟨(finalize_gui_spec initialBuilder).1 rfl,
   (finalize_gui_spec bRootedFrame).2 gRooted rfl (by decide)⟩

/-! ## Shared-variable deduplication -/

/-- Value equality on string values is the string comparison. -/
theorem beq_vStr (a b : Name) : Value.beq (.vStr a) (.vStr b) = (a == b) := by
  simp [Value.beq]

/-- Only the equal string value compares equal to a string value. -/
theorem beq_vStr_iff (k : Value) (a : Name) :
    Value.beq k (.vStr a) = true ↔ k = .vStr a := by
  cases k <;> simp [Value.beq]

/-- Storing under a string key makes it retrievable (dict write/read). -/
theorem lookupV_set_self (d : List (Value × TkObj)) (v : Name) (x : TkObj) :
    lookupV (dictSetV d (.vStr v) x) (.vStr v) = some x := by
  induction d with
  | nil => simp [dictSetV, lookupV, beq_vStr]
  | cons kv rest ih =>
    rcases kv with ⟨k, w⟩
    by_cases hk : Value.beq k (.vStr v) = true
    · simp [dictSetV, hk, lookupV]
    · simp [dictSetV, hk, lookupV, ih]

/-- Storing under one string key does not affect lookups of another. -/
theorem lookupV_set_other (d : List (Value × TkObj)) (a bn : Name) (x : TkObj)
    (hab : bn ≠ a) :
    lookupV (dictSetV d (.vStr a) x) (.vStr bn) = lookupV d (.vStr bn) := by
  have hb : ((a == bn) : Bool) = false := beq_eq_false_iff_ne.mpr (Ne.symm hab)
  induction d with
  | nil => simp [dictSetV, lookupV, beq_vStr, hb]
  | cons kv rest ih =>
    rcases kv with ⟨k, w⟩
    by_cases hk : Value.beq k (.vStr a) = true
    · have hk' : k = .vStr a := (beq_vStr_iff k a).mp hk
      subst hk'
      simp [dictSetV, lookupV, beq_vStr, hb]
    · simp [dictSetV, hk, lookupV, ih]

/-- Opening a radio widget with only a shared-variable name computes to the
radio step: obtain-or-create the variable, then construct and push the bound
widget. -/
theorem open_radio (b : BuilderState) (g : GUIState) (w : TkObj) (v : Name)
    (hg : b.gui = some g) (hw : b.current = some w) :
    open_widget b .tk_Radiobutton [] [(VAR_NAME_KEY, .vStr v)] =
      .ok (radioStep b g v) := by
  unfold open_widget radioStep
  rw [if_neg (by simp [hw])]
  simp only [create_widget_of_type, init_with_var, get_var, name_object,
    TkGUI.set_default, TkGUI.get_default, hg]
  cases hlv : lookupV g.named (.vStr v) with
  | none => simp [pull_from_dict, lookupN, eraseN, VAR_NAME_KEY, WIDGET_NAME_KEY, hlv]
  | some var => simp [pull_from_dict, lookupN, eraseN, VAR_NAME_KEY, WIDGET_NAME_KEY, hlv]

/-- Claim C6: two radio widgets opened in the same document with the same
fresh shared-variable name are bound to one and the same variable object
(the identifier allocated by the first open), while two opened with
different names are bound to distinct variable objects. -/
theorem radio_shared_variable (b : BuilderState) (g : GUIState) (w : TkObj)
    (v₁ v₂ : Name) (hg : b.gui = some g) (hw : b.current = some w)
    (h1 : lookupV g.named (.vStr v₁) = none) (h2 : lookupV g.named (.vStr v₂) = none) :
    ∃ b₁ b₂ : BuilderState,
      open_widget b .tk_Radiobutton [] [(VAR_NAME_KEY, .vStr v₁)] = .ok b₁ ∧
      open_widget b₁ .tk_Radiobutton [] [(VAR_NAME_KEY, .vStr v₂)] = .ok b₂ ∧
      (v₂ = v₁ →
        b₂.bindings = b.bindings ++ [(b.fresh + 1, b.fresh), (b.fresh + 3, b.fresh)]) ∧
      (v₂ ≠ v₁ →
        b₂.bindings = b.bindings ++ [(b.fresh + 1, b.fresh), (b.fresh + 3, b.fresh + 2)]) := by
  refine ⟨radioStep b g v₁,
    radioStep (radioStep b g v₁)
      { g with named := dictSetV g.named (.vStr v₁) ((lookupV g.named (.vStr v₁)).getD (.intVar b.fresh)) } v₂,
    open_radio b g w v₁ hg hw,
    open_radio _ _ _ v₂ rfl rfl, ?_, ?_⟩
  · intro hvv
    subst hvv
    simp [radioStep, push_stack, TkObj.objId, h1, lookupV_set_self]
  · intro hvv
    simp [radioStep, push_stack, TkObj.objId, h1, h2,
      lookupV_set_other g.named v₁ v₂ _ hvv]

/-- Witness for C6: in the rooted builder, radios sharing the name g1 are
bound to the same variable identifier, and a g1 radio with a following g2
radio get distinct variable identifiers. -/
theorem radio_shared_variable_wit :
    (∃ b₁ b₂ : BuilderState,
      open_widget bRooted .tk_Radiobutton [] [(VAR_NAME_KEY, .vStr ("g1".data))] = .ok b₁ ∧
      open_widget b₁ .tk_Radiobutton [] [(VAR_NAME_KEY, .vStr ("g1".data))] = .ok b₂ ∧
      ("g1".data = "g1".data →
        b₂.bindings = bRooted.bindings ++ [(bRooted.fresh + 1, bRooted.fresh), (bRooted.fresh + 3, bRooted.fresh)]) ∧
      ("g1".data ≠ "g1".data →
        b₂.bindings = bRooted.bindings ++ [(bRooted.fresh + 1, bRooted.fresh), (bRooted.fresh + 3, bRooted.fresh + 2)])) ∧
    (∃ b₁ b₂ : BuilderState,
      open_widget bRooted .tk_Radiobutton [] [(VAR_NAME_KEY, .vStr ("g1".data))] = .ok b₁ ∧
      open_widget b₁ .tk_Radiobutton [] [(VAR_NAME_KEY, .vStr ("g2".data))] = .ok b₂ ∧
      ("g2".data = "g1".data →
        b₂.bindings = bRooted.bindings ++ [(bRooted.fresh + 1, bRooted.fresh), (bRooted.fresh + 3, bRooted.fresh)]) ∧
      ("g2".data ≠ "g1".data →
        b₂.bindings = bRooted.bindings ++ [(bRooted.fresh + 1, bRooted.fresh), (bRooted.fresh + 3, bRooted.fresh + 2)])) :=
  ⟨radio_shared_variable bRooted gRooted (.widget 0 (WidgetType.tag .tk_Tk))
      ("g1".data) ("g1".data) rfl rfl rfl rfl,
   radio_shared_variable bRooted gRooted (.widget 0 (WidgetType.tag .tk_Tk))
      ("g1".data) ("g2".data) rfl rfl rfl rfl⟩

end TkinDocs
